import Mathlib

/-!
Shallow embedding of the PBX-System repository (C sources) in Lean 4.

The telephone-unit (TU) state machine and its operations are translated from
`src/unnamed/part_000` (the TU module), the registry operations from
`src/src/pbx.c`, command-line parsing from `src/src/main.c`, and the
session command dispatch from `src/src/server.c`.

A system of TUs is a list of optional TU records; the list index plays the
role of the C object's identity (the code compares TU pointers with `<` in
`tu_dial` and stores `TU *` peer pointers, which we render as indices).
Each operation is a pure function from a system to a system together with
the list of notification lines written to clients and the C return value.
Lock behaviour, which the C code realises with one semaphore per TU plus
two PBX semaphores, is modelled separately by per-operation acquisition
traces mirroring the `sem_wait`/`sem_post` sequence of each code path.
-/

/-- The TU_STATE enumeration of `pbx.h` (the seven states used by part_000). -/
inductive TU_STATE
  | TU_ON_HOOK
  | TU_RINGING
  | TU_DIAL_TONE
  | TU_RING_BACK
  | TU_BUSY_SIGNAL
  | TU_CONNECTED
  | TU_ERROR
deriving DecidableEq, Repr

open TU_STATE

/-- The `struct tu` of part_000 (minus the semaphore, which is modelled by
the lock traces below): state, reference count, extension, file descriptor
and the peer pointer (an index, `none` for NULL). -/
structure TU where
  state : TU_STATE
  references : Int
  ext : Int
  fd : Int
  peer : Option Nat
deriving DecidableEq, Repr

/-- The heap of TU objects: slot `i` holds the TU with identity `i`, or
`none` once that TU has been freed by `tu_unref`. -/
structure Sys where
  tus : List (Option TU)
deriving DecidableEq, Repr

def Sys.get (s : Sys) (i : Nat) : Option TU := s.tus.getD i none

def Sys.set (s : Sys) (i : Nat) (t : TU) : Sys := ⟨s.tus.set i (some t)⟩

def Sys.free (s : Sys) (i : Nat) : Sys := ⟨s.tus.set i none⟩

def Sys.modify (s : Sys) (i : Nat) (f : TU → TU) : Sys :=
  match s.get i with
  | none => s
  | some t => s.set i (f t)

/-- `tu_ref` (part_000): increment the reference count. -/
def tu_ref (s : Sys) (i : Nat) : Sys :=
  s.modify i (fun t => { t with references := t.references + 1 })

/-- `tu_unref` (part_000): decrement the reference count, freeing the TU
when the count reaches 0. -/
def tu_unref (s : Sys) (i : Nat) : Sys :=
  match s.get i with
  | none => s
  | some t =>
    if t.references - 1 = 0 then s.free i
    else s.set i { t with references := t.references - 1 }

/-- Modelled from the spec: the `tu_state_names` array lives in `pbx.h`,
which is not among the source files; §4.4 of the specification gives the
wire form of each state name. -/
def tu_state_names : TU_STATE → String
  | TU_ON_HOOK => "ON HOOK"
  | TU_RINGING => "RINGING"
  | TU_DIAL_TONE => "DIAL TONE"
  | TU_RING_BACK => "RING BACK"
  | TU_BUSY_SIGNAL => "BUSY SIGNAL"
  | TU_CONNECTED => "CONNECTED"
  | TU_ERROR => "ERROR"

/-- `send_to_client` (part_000): format and write one line to the client of
TU `i`.  Returns the line written, or `none` when `fd < 0` or the record was
freed (the C code would fail, respectively touch freed memory).  A CONNECTED
line with `msg = NULL` prints `target->peer->ext`; a NULL peer there would be
a crash in C and is rendered with a dummy extension 0 (no modelled call site
reaches it). -/
def send_to_client (s : Sys) (i : Nat) (st : TU_STATE) (msg : Option String) :
    Option String :=
  match s.get i with
  | none => none
  | some t =>
    if t.fd < 0 then none
    else some (
      if st = TU_CONNECTED then
        match msg with
        | none =>
          let pe : Int :=
            match t.peer with
            | some j => (match s.get j with | some u => u.ext | none => 0)
            | none => 0
          tu_state_names TU_CONNECTED ++ " " ++ toString pe ++ "\n"
        | some m => m ++ "\n"
      else if st = TU_ON_HOOK then
        tu_state_names TU_ON_HOOK ++ " " ++ toString t.ext ++ "\n"
      else
        tu_state_names st ++ "\n")

/-- Collect the notification written by one `send_to_client` call: the list
of (client, line) pairs actually written and an error flag. -/
def emit (s : Sys) (i : Nat) (st : TU_STATE) (msg : Option String) :
    List (Nat × String) × Bool :=
  match send_to_client s i st msg with
  | none => ([], true)
  | some line => ([(i, line)], false)

/-- Result of a TU or PBX operation: the new heap, the notification lines
written (in order), and the C return value. -/
structure OpResult where
  sys : Sys
  notifs : List (Nat × String)
  ret : Int
deriving DecidableEq, Repr

/-- `tu_pickup` (part_000). -/
def tu_pickup (s : Sys) (i : Nat) : OpResult :=
  match s.get i with
  | none => ⟨s, [], -1⟩
  | some tu =>
    if tu.state ≠ TU_ON_HOOK ∧ tu.state ≠ TU_RINGING then
      let (n1, e1) := emit s i tu.state none
      ⟨s, n1, if e1 then -1 else 0⟩
    else if tu.state = TU_ON_HOOK then
      let s1 := s.set i { tu with state := TU_DIAL_TONE }
      let (n1, e1) := emit s1 i TU_DIAL_TONE none
      ⟨s1, n1, if e1 then -1 else 0⟩
    else
      match tu.peer with
      | none => ⟨s, [], -1⟩
      | some j =>
        let s1 := s.set i { tu with state := TU_CONNECTED }
        let s2 := s1.modify j (fun u => { u with state := TU_CONNECTED })
        let (n1, e1) := emit s2 i TU_CONNECTED none
        let (n2, e2) := emit s2 j TU_CONNECTED none
        ⟨s2, n1 ++ n2, if e1 ∨ e2 then -1 else 0⟩

/-- `tu_hangup` (part_000).  The CONNECTED-or-RINGING branch decrements both
reference counts and clears both peer fields; the RING_BACK branch, exactly
as in the source, changes only the two states and performs neither the
unrefs nor the peer clearing. -/
def tu_hangup (s : Sys) (i : Nat) : OpResult :=
  match s.get i with
  | none => ⟨s, [], -1⟩
  | some tu =>
    if tu.state = TU_CONNECTED ∨ tu.state = TU_RINGING then
      match tu.peer with
      | none => ⟨s, [], -1⟩
      | some j =>
        let s1 := s.set i { tu with state := TU_ON_HOOK }
        let s2 := s1.modify j (fun u => { u with state := TU_DIAL_TONE })
        let s3 := tu_unref s2 i
        let s4 := tu_unref s3 j
        let (n1, e1) := emit s4 i TU_ON_HOOK none
        let (n2, e2) := emit s4 j TU_DIAL_TONE none
        let s5 := s4.modify j (fun u => { u with peer := none })
        let s6 := s5.modify i (fun u => { u with peer := none })
        ⟨s6, n1 ++ n2, if e1 ∨ e2 then -1 else 0⟩
    else if tu.state = TU_RING_BACK then
      match tu.peer with
      | none => ⟨s, [], -1⟩
      | some j =>
        let s1 := s.set i { tu with state := TU_ON_HOOK }
        let s2 := s1.modify j (fun u => { u with state := TU_ON_HOOK })
        let (n1, e1) := emit s2 i TU_ON_HOOK none
        let (n2, e2) := emit s2 j TU_ON_HOOK none
        ⟨s2, n1 ++ n2, if e1 ∨ e2 then -1 else 0⟩
    else if tu.state = TU_DIAL_TONE ∨ tu.state = TU_BUSY_SIGNAL ∨ tu.state = TU_ERROR then
      let s1 := s.set i { tu with state := TU_ON_HOOK }
      let (n1, e1) := emit s1 i TU_ON_HOOK none
      ⟨s1, n1, if e1 then -1 else 0⟩
    else
      let (n1, e1) := emit s i tu.state none
      ⟨s, n1, if e1 then -1 else 0⟩

/-- The part of `tu_dial` (part_000) that runs after both TU locks have been
re-acquired in identity order: the re-check `tu->peer != NULL ||
target->state != TU_ON_HOOK` and, on success, the pairing. -/
def tu_dial_locked (s : Sys) (i t : Nat) : OpResult :=
  match s.get i, s.get t with
  | some tu, some tgt =>
    if tu.peer ≠ none ∨ tgt.state ≠ TU_ON_HOOK then
      let s1 := s.set i { tu with state := TU_BUSY_SIGNAL }
      let (n1, e1) := emit s1 i TU_BUSY_SIGNAL none
      ⟨s1, n1, if e1 then -1 else 0⟩
    else
      let s1 := s.set i { tu with state := TU_RING_BACK, peer := some t }
      let s2 := s1.set t { tgt with state := TU_RINGING, peer := some i }
      let s3 := tu_ref s2 i
      let s4 := tu_ref s3 t
      let (n1, e1) := emit s4 i TU_RING_BACK none
      let (n2, e2) := emit s4 t TU_RINGING none
      ⟨s4, n1 ++ n2, if e1 ∨ e2 then -1 else 0⟩
  | _, _ => ⟨s, [], -1⟩

/-- `tu_dial` (part_000).  `target = none` renders a NULL target pointer;
`some t` with `t = i` renders the pointer equality `tu == target`. -/
def tu_dial (s : Sys) (i : Nat) (target : Option Nat) : OpResult :=
  match s.get i with
  | none => ⟨s, [], -1⟩
  | some tu =>
    if tu.state ≠ TU_DIAL_TONE then
      let (n1, e1) := emit s i tu.state none
      ⟨s, n1, if e1 then -1 else 0⟩
    else
      match target with
      | none =>
        let s1 := s.set i { tu with state := TU_ERROR }
        let (n1, e1) := emit s1 i TU_ERROR none
        ⟨s1, n1, if e1 then -1 else 0⟩
      | some t =>
        if t = i then
          let s1 := s.set i { tu with state := TU_BUSY_SIGNAL }
          let (n1, e1) := emit s1 i TU_BUSY_SIGNAL none
          ⟨s1, n1, if e1 then -1 else 0⟩
        else
          tu_dial_locked s i t

/-- Result of `tu_chat`, which additionally records the TU locks still held
when the function returns (the not-CONNECTED branch of the source returns
without `sem_post`). -/
structure ChatResult where
  sys : Sys
  notifs : List (Nat × String)
  ret : Int
  heldLocks : List Nat
deriving DecidableEq, Repr

/-- `tu_chat` (part_000).  On the not-CONNECTED branch the source returns -1
directly after `sem_wait(&tu->tu_mutex)`, so the TU lock stays held. -/
def tu_chat (s : Sys) (i : Nat) (msg : String) : ChatResult :=
  match s.get i with
  | none => ⟨s, [], -1, []⟩
  | some tu =>
    if tu.state ≠ TU_CONNECTED then
      ⟨s, [], -1, [i]⟩
    else
      match tu.peer with
      | none => ⟨s, [], -1, [i]⟩
      | some j =>
        match s.get j with
        | none => ⟨s, [], -1, [i]⟩
        | some pu =>
          let (n1, e1) := emit s i tu.state none
          let (n2, e2) := emit s j pu.state (some msg)
          ⟨s, n1 ++ n2, if e1 ∨ e2 then -1 else 0, []⟩

/-- Modelled from the spec: `PBX_MAX_EXTENSIONS` is defined in `pbx.h`,
which is not among the source files; §3 of the specification fixes the
table size as the design constant (e.g. 1024). -/
def PBX_MAX_EXTENSIONS : Int := 1024

/-- The `struct pbx` of pbx.c (minus the two semaphores, modelled by the
lock traces): the entries table maps an extension to the identity of the
registered TU, and `num_entries` counts occupied slots. -/
structure PBX where
  num_entries : Int
  entries : List (Option Nat)
deriving DecidableEq, Repr

/-- The recipient lookup inside `pbx_dial` (pbx.c):
`if (ext != -1 && pbx->pbx_entries[ext]) recipient = pbx->pbx_entries[ext]`.
For `ext < -1` the C code indexes the table out of bounds (undefined
behaviour); no modelled call site passes such a value, and the model reads
an empty slot there. -/
def pbx_resolve (p : PBX) (ext : Int) : Option Nat :=
  if ext = -1 then none
  else if ext < 0 then none
  else p.entries.getD ext.toNat none

/-- `pbx_dial` (pbx.c): extensions above `PBX_MAX_EXTENSIONS - 1` return -1
before anything else happens; otherwise the recipient (possibly NULL) is
resolved under the pbx mutex and `tu_dial` is called. -/
def pbx_dial (p : PBX) (s : Sys) (i : Nat) (ext : Int) : OpResult :=
  if ext > PBX_MAX_EXTENSIONS - 1 then ⟨s, [], -1⟩
  else tu_dial s i (pbx_resolve p ext)

/-- Identities of the mutexes in the program: one per TU (`tu_mutex`), and
the two PBX mutexes (`pbx_mutex`, `entries_mutex`). -/
inductive LockId
  | tuL (i : Nat)
  | pbxMutex
  | entriesMutex
deriving DecidableEq, Repr

/-- One semaphore event: `wait` acquires, `post` releases. -/
inductive LockEv
  | wait (l : LockId)
  | post (l : LockId)
deriving DecidableEq, Repr

/-- The `sem_wait`/`sem_post` sequence of `tu_pickup` on the path selected
by the state of TU `i` (part_000): the RINGING branch waits on the peer
after its own lock, with no identity-order comparison. -/
def tu_pickup_locks (s : Sys) (i : Nat) : List LockEv :=
  match s.get i with
  | none => []
  | some tu =>
    if tu.state ≠ TU_ON_HOOK ∧ tu.state ≠ TU_RINGING then
      [.wait (.tuL i), .post (.tuL i)]
    else if tu.state = TU_ON_HOOK then
      [.wait (.tuL i), .post (.tuL i)]
    else
      match tu.peer with
      | none => [.wait (.tuL i)]
      | some j => [.wait (.tuL i), .wait (.tuL j), .post (.tuL i), .post (.tuL j)]

/-- The semaphore sequence of `tu_hangup` (part_000): both two-lock branches
wait on the peer lock after self, with no identity-order comparison. -/
def tu_hangup_locks (s : Sys) (i : Nat) : List LockEv :=
  match s.get i with
  | none => []
  | some tu =>
    if tu.state = TU_CONNECTED ∨ tu.state = TU_RINGING then
      match tu.peer with
      | none => [.wait (.tuL i)]
      | some j => [.wait (.tuL i), .wait (.tuL j), .post (.tuL j), .post (.tuL i)]
    else if tu.state = TU_RING_BACK then
      match tu.peer with
      | none => [.wait (.tuL i)]
      | some j => [.wait (.tuL i), .wait (.tuL j), .post (.tuL i), .post (.tuL j)]
    else
      [.wait (.tuL i), .post (.tuL i)]

/-- The semaphore sequence of `tu_chat` (part_000): self first, then the
peer; on the not-CONNECTED branch the self lock is never posted. -/
def tu_chat_locks (s : Sys) (i : Nat) : List LockEv :=
  match s.get i with
  | none => []
  | some tu =>
    if tu.state ≠ TU_CONNECTED then [.wait (.tuL i)]
    else
      match tu.peer with
      | none => [.wait (.tuL i)]
      | some j => [.wait (.tuL i), .wait (.tuL j), .post (.tuL i), .post (.tuL j)]

/-- The semaphore sequence of `tu_dial` (part_000): a first inspection under
the self lock alone, and, when a distinct target must be examined, the pair
is acquired in pointer order (`if (tu < target)`), lower identity first. -/
def tu_dial_locks (s : Sys) (i : Nat) (target : Option Nat) : List LockEv :=
  match s.get i with
  | none => []
  | some tu =>
    if tu.state ≠ TU_DIAL_TONE then [.wait (.tuL i), .post (.tuL i)]
    else
      match target with
      | none => [.wait (.tuL i), .post (.tuL i)]
      | some t =>
        if t = i then [.wait (.tuL i), .post (.tuL i)]
        else
          [.wait (.tuL i), .post (.tuL i)] ++
          (if i < t then [.wait (.tuL i), .wait (.tuL t)]
           else [.wait (.tuL t), .wait (.tuL i)]) ++
          [.post (.tuL t), .post (.tuL i)]

/-- The semaphore sequence of `tu_set_extension` (part_000). -/
def tu_set_extension_locks (i : Nat) : List LockEv :=
  [.wait (.tuL i), .post (.tuL i)]

/-- The semaphore sequence of `pbx_register` (pbx.c): both PBX mutexes are
held across the call to `tu_set_extension`, which takes the TU lock. -/
def pbx_register_locks (p : PBX) (i : Nat) (ext : Int) : List LockEv :=
  if ext < 0 ∨ ext > PBX_MAX_EXTENSIONS - 1 then []
  else
    [.wait .pbxMutex, .wait .entriesMutex] ++
    (if (p.entries.getD ext.toNat none).isSome then []
     else tu_set_extension_locks i) ++
    [.post .entriesMutex, .post .pbxMutex]

/-- The semaphore sequence of `pbx_dial` (pbx.c): the pbx mutex is held
across the whole call to `tu_dial`. -/
def pbx_dial_locks (p : PBX) (s : Sys) (i : Nat) (ext : Int) : List LockEv :=
  if ext > PBX_MAX_EXTENSIONS - 1 then []
  else [.wait .pbxMutex] ++ tu_dial_locks s i (pbx_resolve p ext) ++ [.post .pbxMutex]

/-- At the moment a TU lock `j` is taken, every TU lock already held must
have a lower identity. -/
def tuOrderOK (held : List LockId) (j : Nat) : Bool :=
  held.all fun l =>
    match l with
    | .tuL k => decide (k < j)
    | _ => true

/-- At the moment a TU lock is taken, neither PBX mutex may be held. -/
def noRegistryHeld (held : List LockId) : Bool :=
  !(held.contains LockId.pbxMutex) && !(held.contains LockId.entriesMutex)

/-- Check a semaphore trace against the locking discipline of §5 of the
specification: TU locks are acquired in increasing identity order, and no
TU lock is acquired while a PBX mutex is held. -/
def disciplineOK : List LockId → List LockEv → Bool
  | _, [] => true
  | held, .wait l :: rest =>
    (match l with
     | .tuL j => tuOrderOK held j && noRegistryHeld held
     | _ => true) && disciplineOK (l :: held) rest
  | held, .post l :: rest => disciplineOK (held.erase l) rest

/-- One client command as dispatched to the TU/PBX layer, used to run
operation sequences. -/
inductive Op
  | pickup (i : Nat)
  | dial (i : Nat) (target : Option Nat)
  | hangup (i : Nat)
  | chat (i : Nat) (msg : String)

def applyOp (s : Sys) : Op → Sys
  | .pickup i => (tu_pickup s i).sys
  | .dial i t => (tu_dial s i t).sys
  | .hangup i => (tu_hangup s i).sys
  | .chat i m => (tu_chat s i m).sys

def runOps (s : Sys) (ops : List Op) : Sys := ops.foldl applyOp s

/-- `peer` is non-null exactly in the states RINGING, RING_BACK, CONNECTED. -/
def needsPeer (st : TU_STATE) : Bool :=
  st == TU_RINGING || st == TU_RING_BACK || st == TU_CONNECTED

/-- The state-peer consistency invariant of §3/§8 of the specification. -/
def peerStateInv (s : Sys) : Bool :=
  s.tus.all fun o =>
    match o with
    | none => true
    | some t => t.peer.isSome == needsPeer t.state

/-- The peer-symmetry invariant of §3/§8 of the specification. -/
def peerSymInv (s : Sys) : Bool :=
  (List.range s.tus.length).all fun i =>
    match s.get i with
    | none => true
    | some t =>
      match t.peer with
      | none => true
      | some j =>
        match s.get j with
        | none => false
        | some u => u.peer == some i

def tuInvariant (s : Sys) : Bool := peerStateInv s && peerSymInv s

/-- The NUL character, used where the C code reads a string terminator. -/
def CHAR_NUL : Char := Char.ofNat 0

/-- The whitespace class of C `isspace`, which `strtol` skips. -/
def isSpaceC (c : Char) : Bool :=
  c == ' ' || c == '\t' || c == '\n' || c == Char.ofNat 11 || c == Char.ofNat 12 || c == '\r'

/-- Length of the longest prefix whose characters satisfy `p`. -/
def leadCount (p : Char → Bool) : List Char → Nat
  | [] => 0
  | c :: cs => if p c then leadCount p cs + 1 else 0

/-- Decimal value of a digit string. -/
def digVal (cs : List Char) : Int :=
  cs.foldl (fun acc c => acc * 10 + ((c.toNat : Int) - 48)) 0

/-- C `strtol(s, &endptr, 10)` on a character list: skips leading
whitespace, consumes an optional sign and then decimal digits.  Returns the
value and the number of characters consumed (the offset of `endptr`); when
no digits are found, no conversion happens and `endptr` stays at the start,
rendered as `(0, 0)`.  Overflow clamping of the C `long` is not modelled;
no claim concerns values near the `long` range. -/
def strtol10 (cs : List Char) : Int × Nat :=
  let ws := leadCount isSpaceC cs
  let r1 := cs.drop ws
  let signLen : Nat := if r1.getD 0 CHAR_NUL == '-' || r1.getD 0 CHAR_NUL == '+' then 1 else 0
  let sgn : Int := if r1.getD 0 CHAR_NUL == '-' then -1 else 1
  let ds := r1.drop signLen
  let nd := leadCount Char.isDigit ds
  if nd = 0 then (0, 0)
  else (sgn * digVal (ds.take nd), ws + signLen + nd)

/-- The first `strtok(buffer, " ")` token of a line. -/
def firstTok (cs : List Char) : List Char :=
  (cs.dropWhile (fun c => c == ' ')).takeWhile (fun c => c != ' ')

/-- The second `strtok(NULL, " ")` token of a line. -/
def secondTok (cs : List Char) : List Char :=
  let rest := (cs.dropWhile (fun c => c == ' ')).dropWhile (fun c => c != ' ')
  (rest.dropWhile (fun c => c == ' ')).takeWhile (fun c => c != ' ')

/-- The dial branch of `pbx_client_service` (server.c, the body guarded by
`strcmp(command, "dial") == 0`), applied to the argument token delivered by
`strtok`.  `none` renders the `continue` that skips the iteration without
calling any TU or PBX operation; `some n` renders the call
`pbx_dial(pbx, teleunit, n)`.  The read `*(endpointer - 1)` lands, when
`strtol` consumed nothing, on the NUL byte that `strtok` wrote over the
space before the token, rendered by `CHAR_NUL`. -/
def dial_arg_action (tok : List Char) : Option Int :=
  if tok.getD 0 CHAR_NUL = '\r' ∧ tok.getD 1 CHAR_NUL = '\n' then none
  else
    let r := strtol10 tok
    let lastConsumed : Char := if r.2 = 0 then CHAR_NUL else tok.getD (r.2 - 1) CHAR_NUL
    some (if r.1 = 0 ∧ lastConsumed ≠ '0' then -1 else r.1)

/-- Build a TU record; concrete systems below use it. -/
def mkTU (st : TU_STATE) (r e f : Int) (p : Option Nat) : TU :=
  { state := st, references := r, ext := e, fd := f, peer := p }

/-- Two freshly registered TUs on extensions 0 and 1 (each holding the one
registration reference), as after two clients connect. -/
def sysRegistered2 : Sys :=
  ⟨[some (mkTU TU_ON_HOOK 1 0 3 none), some (mkTU TU_ON_HOOK 1 1 4 none)]⟩

/-- Three freshly registered TUs on extensions 0, 1 and 2. -/
def sysRegistered3 : Sys :=
  ⟨[some (mkTU TU_ON_HOOK 1 0 3 none), some (mkTU TU_ON_HOOK 1 1 4 none),
    some (mkTU TU_ON_HOOK 1 2 5 none)]⟩

/-- TU 0 has dialed TU 1 and not yet hung up: TU 0 is in RING_BACK, TU 1 in
RINGING, each holding a registration and a peering reference. -/
def sysRingBack : Sys :=
  ⟨[some (mkTU TU_RING_BACK 2 0 3 (some 1)), some (mkTU TU_RINGING 2 1 4 (some 0))]⟩

/-- The same call viewed from the callee: TU 0 is the RINGING side, its
peer TU 1 is in RING_BACK. -/
def sysRinging : Sys :=
  ⟨[some (mkTU TU_RINGING 2 0 3 (some 1)), some (mkTU TU_RING_BACK 2 1 4 (some 0))]⟩

/-- A caller with dial tone on extension 0 and an idle TU on extension 1. -/
def sysDial : Sys :=
  ⟨[some (mkTU TU_DIAL_TONE 1 0 3 none), some (mkTU TU_ON_HOOK 1 1 4 none)]⟩

/-- Two TUs in an established call. -/
def sysConn : Sys :=
  ⟨[some (mkTU TU_CONNECTED 2 0 3 (some 1)), some (mkTU TU_CONNECTED 2 1 4 (some 0))]⟩

/-- A single TU that is ON_HOOK. -/
def sysOnHook1 : Sys := ⟨[some (mkTU TU_ON_HOOK 1 0 3 none)]⟩

/-- The state reached from three registered TUs by
pickup 0; dial 0→1; hangup 0; pickup 0: because the RING_BACK hangup branch
clears no peer fields, TU 0 reaches DIAL_TONE with a stale peer pointer. -/
def sysStalePeer : Sys :=
  runOps sysRegistered3 [.pickup 0, .dial 0 (some 1), .hangup 0, .pickup 0]

/-- A PBX with extensions 0 and 1 registered. -/
def pbx2 : PBX := ⟨2, [some 0, some 1]⟩

/-- A PBX with no registered extension. -/
def pbxEmpty : PBX := ⟨0, [none]⟩

theorem list_getD_ge {α : Type} (l : List α) (i : Nat) (d : α) (h : l.length ≤ i) :
    l.getD i d = d := by
  induction l generalizing i with
  | nil => rfl
  | cons a t ih =>
    cases i with
    | zero => exact absurd h (by simp)
    | succ n => exact ih n (Nat.le_of_succ_le_succ h)

theorem list_getD_set_self {α : Type} (l : List α) (i : Nat) (x d : α) (h : i < l.length) :
    (l.set i x).getD i d = x := by
  induction l generalizing i with
  | nil => exact absurd h (by simp)
  | cons a t ih =>
    cases i with
    | zero => rfl
    | succ n => exact ih n (Nat.lt_of_succ_lt_succ h)

theorem list_getD_set_other {α : Type} (l : List α) (i j : Nat) (x d : α) (h : j ≠ i) :
    (l.set i x).getD j d = l.getD j d := by
  induction l generalizing i j with
  | nil => rfl
  | cons a t ih =>
    cases i with
    | zero =>
      cases j with
      | zero => exact absurd rfl h
      | succ m => rfl
    | succ n =>
      cases j with
      | zero => rfl
      | succ m => exact ih n m (fun hh => h (congrArg Nat.succ hh))

theorem Sys.get_lt {s : Sys} {i : Nat} {a : TU} (h : s.get i = some a) :
    i < s.tus.length := by
  by_contra hlt
  rw [Sys.get, list_getD_ge _ _ _ (Nat.le_of_not_lt hlt)] at h
  exact Option.noConfusion h

theorem Sys.get_set_self {s : Sys} {i : Nat} (t : TU) (h : i < s.tus.length) :
    (s.set i t).get i = some t :=
  list_getD_set_self _ _ _ _ h

theorem Sys.get_set_other {s : Sys} {i j : Nat} (t : TU) (h : j ≠ i) :
    (s.set i t).get j = s.get j :=
  list_getD_set_other _ _ _ _ _ h

theorem Sys.length_set {s : Sys} {i : Nat} {t : TU} :
    (s.set i t).tus.length = s.tus.length := by
  simp [Sys.set]

theorem Sys.get_set (s : Sys) (i j : Nat) (t : TU) :
    (s.set i t).get j =
      if j = i then (if i < s.tus.length then some t else s.get j) else s.get j := by
  by_cases hji : j = i
  · subst hji
    by_cases hl : j < s.tus.length
    · simp [hl, Sys.get_set_self t hl]
    · have hle : s.tus.length ≤ j := Nat.le_of_not_lt hl
      simp [hl, Sys.get, Sys.set, List.set_eq_of_length_le hle]
  · simp [hji, Sys.get_set_other t hji]

/-- C1, counterexample: TU 0 is RINGING and its peer TU 1 is RING_BACK, yet
`tu_hangup` on TU 0 moves the peer to DIAL_TONE, not to ON_HOOK as the
claim states. -/
theorem C1_counterexample :
    (sysRinging.get 0).map TU.state = some TU_RINGING ∧
    (sysRinging.get 0).bind TU.peer = some 1 ∧
    (sysRinging.get 1).map TU.state = some TU_RING_BACK ∧
    ((tu_hangup sysRinging 0).sys.get 1).map TU.state ≠ some TU_ON_HOOK ∧
    ((tu_hangup sysRinging 0).sys.get 1).map TU.state = some TU_DIAL_TONE := by
  decide

/-- C1, amended: for every TU in state RINGING with a peer (the peer being
in RING_BACK), `tu_hangup` moves the TU to ON_HOOK and the peer to
DIAL_TONE (not ON_HOOK); both reference counts drop by one, both peer
fields are cleared, and both clients are notified of their new states. -/
theorem C1_theorem (s : Sys) (i j : Nat) (a b : TU)
    (hij : i ≠ j)
    (hi : s.get i = some a) (hj : s.get j = some b)
    (ha : a.state = TU_RINGING) (hap : a.peer = some j)
    (_hb : b.state = TU_RING_BACK) (hbp : b.peer = some i)
    (hra : a.references - 1 ≠ 0) (hrb : b.references - 1 ≠ 0)
    (hfa : 0 ≤ a.fd) (hfb : 0 ≤ b.fd) :
    (tu_hangup s i).sys.get i =
      some { a with state := TU_ON_HOOK, references := a.references - 1, peer := none } ∧
    (tu_hangup s i).sys.get j =
      some { b with state := TU_DIAL_TONE, references := b.references - 1, peer := none } ∧
    (tu_hangup s i).notifs =
      [(i, "ON HOOK " ++ toString a.ext ++ "\n"), (j, "DIAL TONE\n")] := by
  have hlti : i < s.tus.length := Sys.get_lt hi
  have hltj : j < s.tus.length := Sys.get_lt hj
  have hji : j ≠ i := Ne.symm hij
  have hfa2 : ¬ a.fd < 0 := Int.not_lt.mpr hfa
  have hfb2 : ¬ b.fd < 0 := Int.not_lt.mpr hfb
  simp [tu_hangup, tu_unref, Sys.modify, Sys.free, emit, send_to_client, tu_state_names,
    Sys.get_set, Sys.length_set, hi, hj, ha, hap, hbp, hra, hrb, hfa2, hfb2,
    hij, hji, hlti, hltj]

/-- C1, witness: the amended theorem applied to the concrete RINGING or
RING_BACK pair `sysRinging`. -/
theorem C1_witness :
    ((tu_hangup sysRinging 0).sys.get 0).map TU.state = some TU_ON_HOOK ∧
    ((tu_hangup sysRinging 0).sys.get 1).map TU.state = some TU_DIAL_TONE ∧
    (tu_hangup sysRinging 0).notifs = [(0, "ON HOOK 0\n"), (1, "DIAL TONE\n")] := by
  have h := C1_theorem sysRinging 0 1
    (mkTU TU_RINGING 2 0 3 (some 1)) (mkTU TU_RING_BACK 2 1 4 (some 0))
    (by decide) rfl rfl rfl rfl rfl rfl (by decide) (by decide) (by decide) (by decide)
  refine ⟨?_, ?_, ?_⟩
  · rw [h.1]; decide
  · rw [h.2.1]; decide
  · rw [h.2.2]; decide

/-- C2: the claim fails in the RING_BACK branch of `tu_hangup`, which the
source exits without decrementing either reference count and without
clearing either peer field: from the RING_BACK or RINGING pair
`sysRingBack`, hanging up TU 0 leaves both reference counts at 2 and both
peer fields set. -/
theorem C2_theorem :
    (sysRingBack.get 0).map TU.state = some TU_RING_BACK ∧
    (tu_hangup sysRingBack 0).sys.get 0 = some (mkTU TU_ON_HOOK 2 0 3 (some 1)) ∧
    (tu_hangup sysRingBack 0).sys.get 1 = some (mkTU TU_ON_HOOK 2 1 4 (some 0)) := by
  decide

/-- C3: the state-peer and symmetry invariant holds for two freshly
registered TUs but is violated after the operation sequence
pickup 0; dial 0→1; hangup 0, because the RING_BACK hangup branch leaves
both peer fields set while both TUs are ON_HOOK. -/
theorem C3_theorem :
    tuInvariant sysRegistered2 = true ∧
    tuInvariant (runOps sysRegistered2 [.pickup 0, .dial 0 (some 1), .hangup 0]) = false := by
  decide

/-- C4, counterexample: in the reachable state `sysStalePeer` the caller
TU 0 has dial tone and the target TU 2 is ON_HOOK with a null peer, so by
the claim the dial must end in RING_BACK; the code instead yields
BUSY_SIGNAL, because the re-check tests the caller's own (stale) peer
field rather than the target's. -/
theorem C4_counterexample :
    (sysStalePeer.get 0).map TU.state = some TU_DIAL_TONE ∧
    sysStalePeer.get 2 = some (mkTU TU_ON_HOOK 1 2 5 none) ∧
    ((tu_dial sysStalePeer 0 (some 2)).sys.get 0).map TU.state ≠ some TU_RING_BACK ∧
    ((tu_dial sysStalePeer 0 (some 2)).sys.get 0).map TU.state = some TU_BUSY_SIGNAL := by
  decide

/-- C4, amended: in `tu_dial` with self in DIAL_TONE and a distinct
non-null target, after the lock gap the caller transitions to BUSY_SIGNAL
exactly when the caller's own peer field is non-null or the target's state
is not ON_HOOK (the source re-checks `tu->peer`, not `target->peer`);
otherwise self goes to RING_BACK, the target to RINGING, a symmetric peer
link is established and both reference counts are incremented. -/
theorem C4_theorem (s : Sys) (i t : Nat) (a b : TU)
    (hit : i ≠ t)
    (hi : s.get i = some a) (ht : s.get t = some b)
    (ha : a.state = TU_DIAL_TONE) (hfa : 0 ≤ a.fd) (hfb : 0 ≤ b.fd) :
    (((tu_dial s i (some t)).sys.get i).map TU.state = some TU_BUSY_SIGNAL ↔
       (a.peer ≠ none ∨ b.state ≠ TU_ON_HOOK)) ∧
    (a.peer = none → b.state = TU_ON_HOOK →
       (tu_dial s i (some t)).sys.get i =
         some { a with state := TU_RING_BACK, peer := some t,
                       references := a.references + 1 } ∧
       (tu_dial s i (some t)).sys.get t =
         some { b with state := TU_RINGING, peer := some i,
                       references := b.references + 1 } ∧
       (tu_dial s i (some t)).notifs = [(i, "RING BACK\n"), (t, "RINGING\n")]) := by
  have hlti : i < s.tus.length := Sys.get_lt hi
  have hltt : t < s.tus.length := Sys.get_lt ht
  have hti : t ≠ i := Ne.symm hit
  have hfa2 : ¬ a.fd < 0 := Int.not_lt.mpr hfa
  have hfb2 : ¬ b.fd < 0 := Int.not_lt.mpr hfb
  by_cases hcond : a.peer ≠ none ∨ b.state ≠ TU_ON_HOOK
  · constructor
    · simp [tu_dial, tu_dial_locked, hi, ht, ha, hti, emit, send_to_client,
        Sys.get_set, Sys.length_set, hlti, hfa2, hcond]
    · intro hp hb
      exact absurd hcond (by simp [hp, hb])
  · push_neg at hcond
    obtain ⟨hp, hb⟩ := hcond
    constructor
    · simp [tu_dial, tu_dial_locked, tu_ref, Sys.modify, hi, ht, ha, hp, hb, hit, hti,
        emit, send_to_client, Sys.get_set, Sys.length_set, hlti, hltt, hfa2, hfb2]
    · intro _ _
      simp [tu_dial, tu_dial_locked, tu_ref, Sys.modify, hi, ht, ha, hp, hb, hit, hti,
        emit, send_to_client, Sys.get_set, Sys.length_set, hlti, hltt, hfa2, hfb2,
        tu_state_names]

/-- C4, witness: the amended theorem applied to `sysDial`, where TU 0 dials
the idle TU 1 and the pairing succeeds. -/
theorem C4_witness :
    ((tu_dial sysDial 0 (some 1)).sys.get 0).map TU.state ≠ some TU_BUSY_SIGNAL ∧
    (tu_dial sysDial 0 (some 1)).sys.get 0 = some (mkTU TU_RING_BACK 2 0 3 (some 1)) ∧
    (tu_dial sysDial 0 (some 1)).sys.get 1 = some (mkTU TU_RINGING 2 1 4 (some 0)) := by
  have h := C4_theorem sysDial 0 1
    (mkTU TU_DIAL_TONE 1 0 3 none) (mkTU TU_ON_HOOK 1 1 4 none)
    (by decide) rfl rfl rfl (by decide) (by decide)
  have h2 := h.2 rfl rfl
  refine ⟨?_, ?_, ?_⟩
  · rw [h2.1]; decide
  · rw [h2.1]; decide
  · rw [h2.2.1]; decide

/-- C5, counterexample: for an extension above `PBX_MAX_EXTENSIONS - 1`
(out of range), `pbx_dial` returns -1 before ever calling `tu_dial`: the
DIAL_TONE caller does not transition to ERROR and no notification is sent,
contrary to the claim. -/
theorem C5_counterexample :
    (sysDial.get 0).map TU.state = some TU_DIAL_TONE ∧
    PBX_MAX_EXTENSIONS - 1 < 2000 ∧
    pbx_dial pbx2 sysDial 0 2000 = ⟨sysDial, [], -1⟩ ∧
    ((pbx_dial pbx2 sysDial 0 2000).sys.get 0).map TU.state ≠ some TU_ERROR ∧
    (pbx_dial pbx2 sysDial 0 2000).notifs = [] := by
  decide

/-- C5, amended: for extensions at most `PBX_MAX_EXTENSIONS - 1`,
`pbx_dial` resolves the extension (to null for -1 or a vacant slot) and
delegates to `tu_dial`, so a DIAL_TONE caller whose extension resolves to
null transitions to ERROR and is notified; but for an extension above
`PBX_MAX_EXTENSIONS - 1` it returns -1 without invoking `tu_dial`, leaving
the caller's state unchanged and sending nothing. -/
theorem C5_theorem (p : PBX) (s : Sys) (i : Nat) (ext : Int) (a : TU)
    (hi : s.get i = some a) (ha : a.state = TU_DIAL_TONE) (hfa : 0 ≤ a.fd) :
    (ext ≤ PBX_MAX_EXTENSIONS - 1 →
       pbx_dial p s i ext = tu_dial s i (pbx_resolve p ext) ∧
       (pbx_resolve p ext = none →
          (pbx_dial p s i ext).sys.get i = some { a with state := TU_ERROR } ∧
          (pbx_dial p s i ext).notifs = [(i, "ERROR\n")])) ∧
    (PBX_MAX_EXTENSIONS - 1 < ext → pbx_dial p s i ext = ⟨s, [], -1⟩) := by
  have hlti : i < s.tus.length := Sys.get_lt hi
  have hfa2 : ¬ a.fd < 0 := Int.not_lt.mpr hfa
  constructor
  · intro hle
    have hng : ¬ (PBX_MAX_EXTENSIONS - 1 < ext) := Int.not_lt.mpr hle
    constructor
    · simp [pbx_dial, hng]
    · intro hres
      simp [pbx_dial, hng, hres, tu_dial, hi, ha, emit, send_to_client,
        Sys.get_set, hlti, hfa2, tu_state_names]
  · intro hgt
    simp [pbx_dial, hgt]

/-- C5, witness: the amended theorem applied to `pbx2` and `sysDial`, for
the null-resolving extension -1 and the out-of-range extension 2000. -/
theorem C5_witness :
    pbx_dial pbx2 sysDial 0 (-1) = tu_dial sysDial 0 (pbx_resolve pbx2 (-1)) ∧
    ((pbx_dial pbx2 sysDial 0 (-1)).sys.get 0).map TU.state = some TU_ERROR ∧
    (pbx_dial pbx2 sysDial 0 (-1)).notifs = [(0, "ERROR\n")] ∧
    pbx_dial pbx2 sysDial 0 2000 = ⟨sysDial, [], -1⟩ := by
  have h := C5_theorem pbx2 sysDial 0 (-1)
    (mkTU TU_DIAL_TONE 1 0 3 none) rfl rfl (by decide)
  have h1 := h.1 (by decide)
  have h2 := h1.2 (by decide)
  have h3 := (C5_theorem pbx2 sysDial 0 2000
    (mkTU TU_DIAL_TONE 1 0 3 none) rfl rfl (by decide)).2 (by decide)
  refine ⟨h1.1, ?_, h2.2, h3⟩
  rw [h2.1]; decide

/-- C6: the claim is met by the source only in part: on a TU that is not
CONNECTED (here ON_HOOK), `tu_chat` does return -1 and writes nothing to
any peer, but it returns while still holding the TU's lock (the source
returns from the not-CONNECTED branch without `sem_post`), so the lock is
not released on every exit path. -/
theorem C6_theorem :
    tu_chat sysOnHook1 0 "CHAT hi" = ⟨sysOnHook1, [], -1, [0]⟩ := by
  decide

/-- C7: a TU that is ON_HOOK moves to DIAL_TONE on the first `tu_pickup`;
a second `tu_pickup` changes nothing, and the two calls emit exactly the
two notification lines DIAL TONE then DIAL TONE. -/
theorem C7_theorem (s : Sys) (i : Nat) (a : TU) (hget : s.get i = some a)
    (hstate : a.state = TU_ON_HOOK) (hfd : 0 ≤ a.fd) :
    (tu_pickup s i).sys.get i = some { a with state := TU_DIAL_TONE } ∧
    (tu_pickup (tu_pickup s i).sys i).sys = (tu_pickup s i).sys ∧
    (tu_pickup s i).notifs ++ (tu_pickup (tu_pickup s i).sys i).notifs =
      [(i, "DIAL TONE\n"), (i, "DIAL TONE\n")] := by
  have hlt : i < s.tus.length := Sys.get_lt hget
  have hget2 : (s.set i { a with state := TU_DIAL_TONE }).get i =
      some { a with state := TU_DIAL_TONE } := Sys.get_set_self _ hlt
  have hfd2 : ¬ a.fd < 0 := Int.not_lt.mpr hfd
  have h1 : tu_pickup s i =
      ⟨s.set i { a with state := TU_DIAL_TONE }, [(i, "DIAL TONE\n")], 0⟩ := by
    simp [tu_pickup, hget, hstate, emit, send_to_client, hget2, hfd2, tu_state_names]
  have h2 : tu_pickup (s.set i { a with state := TU_DIAL_TONE }) i =
      ⟨s.set i { a with state := TU_DIAL_TONE }, [(i, "DIAL TONE\n")], 0⟩ := by
    simp [tu_pickup, hget2, emit, send_to_client, hfd2, tu_state_names]
  rw [h1]
  simp only [h2]
  exact ⟨hget2, trivial, rfl⟩

/-- C7, witness: the theorem applied to the single ON_HOOK TU of
`sysOnHook1`. -/
theorem C7_witness :
    (tu_pickup sysOnHook1 0).sys.get 0 = some (mkTU TU_DIAL_TONE 1 0 3 none) ∧
    (tu_pickup (tu_pickup sysOnHook1 0).sys 0).sys = (tu_pickup sysOnHook1 0).sys ∧
    (tu_pickup sysOnHook1 0).notifs ++ (tu_pickup (tu_pickup sysOnHook1 0).sys 0).notifs =
      [(0, "DIAL TONE\n"), (0, "DIAL TONE\n")] := by
  have h := C7_theorem sysOnHook1 0 (mkTU TU_ON_HOOK 1 0 3 none) rfl rfl (by decide)
  refine ⟨?_, h.2.1, h.2.2⟩
  rw [h.1]; decide

/-- C9: the locking discipline of the specification (two TU locks always in
increasing identity order; no TU lock while a PBX mutex is held) is obeyed
by `tu_dial` but violated by the source elsewhere: `tu_hangup` on the
higher-identity TU of a connected pair acquires self before the
lower-identity peer, `tu_chat` likewise, and `pbx_register` acquires the TU
lock inside `tu_set_extension` while both PBX mutexes are held. -/
theorem C9_theorem :
    disciplineOK [] (tu_dial_locks sysDial 0 (some 1)) = true ∧
    disciplineOK [] (tu_hangup_locks sysConn 1) = false ∧
    disciplineOK [] (tu_chat_locks sysConn 1) = false ∧
    disciplineOK [] (pbx_register_locks pbxEmpty 2 0) = false := by
  decide

/-- C10: for the input line `dial \r\n` the argument token delivered by
`strtok` is exactly the CRLF terminator and the dial branch skips the
iteration without invoking any TU or PBX operation or sending anything;
an argument on which `strtol` performs no conversion (a non-numeric
argument) is passed to `pbx_dial` as extension -1, which resolves to a
null target. -/
theorem C10_theorem :
    secondTok "dial \r\n".toList = ['\r', '\n'] ∧
    dial_arg_action ['\r', '\n'] = none ∧
    (∀ tok : List Char, strtol10 tok = (0, 0) →
       ¬ (tok.getD 0 CHAR_NUL = '\r' ∧ tok.getD 1 CHAR_NUL = '\n') →
       dial_arg_action tok = some (-1)) ∧
    (∀ p : PBX, pbx_resolve p (-1) = none) := by
  refine ⟨by decide, by decide, ?_, ?_⟩
  · intro tok h hne
    simp only [dial_arg_action]
    rw [if_neg hne]
    simp [h, CHAR_NUL]
  · intro p
    simp [pbx_resolve]

/-- C10, witness: the theorem applied to the non-numeric token `abc` (with
its CRLF tail) and to the registry `pbx2`. -/
theorem C10_witness :
    dial_arg_action "abc\r\n".toList = some (-1) ∧
    pbx_resolve pbx2 (-1) = none := by
  exact ⟨C10_theorem.2.2.1 "abc\r\n".toList (by decide) (by decide),
    C10_theorem.2.2.2 pbx2⟩
